import Mathlib

/-!
Verification of the ABE multi-runner benchmark pipeline (`benchmark.ts`).

The development shallowly embeds the core pipeline of the repository:
`compileApp`, `runApp`, `stopApp`, `runSingleRunner` and
`runMultiRunnerBenchmark`.  Stateful / asynchronous behaviour (subprocess
events, thrown exceptions, wall-clock durations) is made explicit:
fallible external calls are modelled as `Except` values supplied through an
environment record, subprocess output is a time-stamped event list, and each
embedded function additionally returns a trace recording which stages and
cleanup actions were invoked.
-/

set_option maxRecDepth 40000

deriving instance DecidableEq for Except

namespace Abe

/-! ## List-level string helpers

`String.trim` / `String.splitOn` do not reduce definitionally, so the string
operations used by the source are re-implemented structurally over `List
Char`.  They mirror the JavaScript semantics used by `benchmark.ts`
(`filter.split(',')`, `String.prototype.trim`, truthiness of strings). -/

/-- Whitespace as matched by the JavaScript `\s` class and `trim` (ASCII
subset relevant here, plus vertical tab and form feed). -/
def jsIsWs (c : Char) : Bool :=
  c.isWhitespace || c == '\x0b' || c == '\x0c'

/-- `String.prototype.trim`, structurally. -/
def trimL (s : List Char) : List Char :=
  ((s.dropWhile jsIsWs).reverse.dropWhile jsIsWs).reverse

/-- `String.prototype.split(',')`: every comma separates; empty pieces are
kept (`"" ↦ [""]`, like JavaScript). -/
def splitCommaL : List Char → List (List Char)
  | [] => [[]]
  | c :: cs =>
    let r := splitCommaL cs
    if c == ',' then [] :: r
    else
      match r with
      | h :: t => (c :: h) :: t
      | [] => [[c]]

/-- Does `needle` occur at the head of `hay`? -/
def leadsWith : List Char → List Char → Bool
  | [], _ => true
  | _ :: _, [] => false
  | n :: ns, h :: hs => n == h && leadsWith ns hs

/-- Substring occurrence test on character lists. -/
def hasSubL (needle : List Char) : List Char → Bool
  | [] => leadsWith needle []
  | h :: hs => leadsWith needle (h :: hs) || hasSubL needle hs

/-- Substring occurrence test on strings (used to state "error contains
\"timeout\""). -/
def containsStr (hay needle : String) : Bool :=
  hasSubL needle.data hay.data

/-- `String.prototype.substring(0, n)`, structurally (code points; the
sources only truncate ASCII diagnostics). -/
def strTake (s : String) (n : Nat) : String :=
  String.mk (s.data.take n)

/-- Case-insensitive literal match: consume `pat` from the head of `s`
(comparing lower-cased characters, as the `/i` regex flag does for the ASCII
patterns involved) and return the remainder. -/
def dropLitCI : List Char → List Char → Option (List Char)
  | [], s => some s
  | _ :: _, [] => none
  | p :: ps, c :: cs => if p.toLower == c.toLower then dropLitCI ps cs else none

/-! ## The serve-stage ready pattern

`runApp` matches each stdout chunk against `/Local:\s+(http:\/\/localhost:\d+)/i`
after stripping ANSI escapes.  `matchAtHead` tries the pattern at one
position; `findLocalMatch` scans left to right, so the leftmost match wins,
exactly as `String.prototype.match` does for this backtracking-free
pattern. -/

/-- Attempt the ready pattern at the head of `s`; on success return the
capture group `http://localhost:\d+` (original characters, maximal digit
run). -/
def matchAtHead (s : List Char) : Option (List Char) :=
  match dropLitCI "Local:".data s with
  | none => none
  | some r1 =>
    let ws := r1.takeWhile jsIsWs
    let r2 := r1.dropWhile jsIsWs
    if ws.isEmpty then none
    else
      match dropLitCI "http://localhost:".data r2 with
      | none => none
      | some r3 =>
        let digits := r3.takeWhile Char.isDigit
        if digits.isEmpty then none
        else some (r2.take "http://localhost:".length ++ digits)

/-- Leftmost match of the ready pattern in `s`. -/
def findLocalMatch : List Char → Option (List Char)
  | [] => none
  | c :: rest =>
    match matchAtHead (c :: rest) with
    | some cap => some cap
    | none => findLocalMatch rest

/-- `cleanText.match(/Local:\s+(http:\/\/localhost:\d+)/i)?.[1]`. -/
def matchLocalUrl (s : String) : Option String :=
  (findLocalMatch s.data).map String.mk

/-! ## ANSI stripping

`text.replace(/\x1B\[[0-9;]*[mGKHF]/g, '')`.  `parseAnsiTail` consumes the
parameter bytes and final byte of one escape sequence; `stripAnsiGo` scans
the text left to right (fuelled by the input length, which strictly bounds
the recursion). -/

/-- Given the characters after `ESC [`, consume `[0-9;]*` and then a final
character in `[mGKHF]`; return the rest on success. -/
def parseAnsiTail : List Char → Option (List Char)
  | [] => none
  | c :: cs =>
    if c.isDigit || c == ';' then parseAnsiTail cs
    else if c == 'm' || c == 'G' || c == 'K' || c == 'H' || c == 'F' then some cs
    else none

/-- One left-to-right pass removing ANSI escape sequences; a failed match at
an `ESC` keeps that character and resumes scanning at the next position,
like a global regex replace. -/
def stripAnsiGo : Nat → List Char → List Char
  | 0, s => s
  | _ + 1, [] => []
  | n + 1, '\x1b' :: '[' :: rest =>
    match parseAnsiTail rest with
    | some r => stripAnsiGo n r
    | none => '\x1b' :: stripAnsiGo n ('[' :: rest)
  | n + 1, c :: cs => c :: stripAnsiGo n cs

/-- Strip ANSI colour codes, as the serve stage does before pattern
matching. -/
def stripAnsi (s : String) : String :=
  String.mk (stripAnsiGo s.data.length s.data)

/-! ## Data model (the result shapes of `benchmark.ts`) -/

/-- `BenchmarkResult.build` — outcome of the code-generation call. -/
structure BuildInfo where
  success : Bool
  duration : Nat
deriving Repr, DecidableEq, Inhabited

/-- The part of a runner adapter's `BenchmarkResult` consumed by the
pipeline. -/
structure BenchmarkResult where
  build : BuildInfo
  workspaceDir : String
deriving Repr, DecidableEq, Inhabited

/-- `CompileResult`. -/
structure CompileResult where
  success : Bool
  duration : Nat
  buildDuration : Option Nat := none
  installDuration : Option Nat := none
  installNeeded : Option Bool := none
  stdout : Option String := none
  stderr : Option String := none
  error : Option String := none
deriving Repr, DecidableEq, Inhabited

/-- `RunResult` (serve stage); `hasProcess` stands for the retained
`ChildProcess` handle. -/
structure RunResult where
  success : Bool
  serverUrl : Option String := none
  hasProcess : Bool := false
  duration : Nat
  output : Option String := none
  error : Option String := none
deriving Repr, DecidableEq, Inhabited

/-- `AnalyzeResult` (the fields the executor consumes). -/
structure AnalyzeResult where
  success : Bool
  duration : Nat
  screenshotPath : Option String := none
  consoleErrors : Option (List String) := none
  pageErrors : Option (List String) := none
  error : Option String := none
deriving Repr, DecidableEq, Inhabited

/-- `RunnerBenchmarkResult.durations`. -/
structure StageDurations where
  codeGeneration : Nat
  compilation : Nat
  serverStartup : Nat
  analysis : Nat
deriving Repr, DecidableEq, Inhabited

/-- `RunnerBenchmarkResult.errors`. -/
structure ErrorCounts where
  consoleErrors : Nat
  pageErrors : Nat
deriving Repr, DecidableEq, Inhabited

/-- `RunnerBenchmarkResult`. -/
structure RunnerBenchmarkResult where
  runner : String
  model : String
  success : Bool
  totalDuration : Nat
  durations : StageDurations
  errors : ErrorCounts
  screenshotPath : Option String := none
  workspaceDir : Option String := none
  error : Option String := none
deriving Repr, DecidableEq, Inhabited

/-- `BenchmarkMetadata.summary`. -/
structure BenchmarkSummary where
  totalRunners : Nat
  successfulRunners : Nat
  failedRunners : Nat
  fastestRunner : Option String
  fastestTime : Option Nat
deriving Repr, DecidableEq, Inhabited

/-- `BenchmarkMetadata`. -/
structure BenchmarkMetadata where
  appName : String
  timestamp : String
  dateStr : String
  prompt : String
  runners : List RunnerBenchmarkResult
  summary : BenchmarkSummary
deriving Repr, DecidableEq, Inhabited

/-- A `RunnerConfig` registry entry: `runBenchmark` is supplied through the
execution environment; `hasCleanup` records whether the optional
`cleanupWorkspace` member is present (it is, for both registered
runners). -/
structure RunnerConfigM where
  id : String
  name : String
  defaultModel : String
  hasCleanup : Bool
deriving Repr, DecidableEq, Inhabited

/-- The `RUNNERS` registry of `benchmark.ts`, in declaration order. -/
def RUNNERS : List RunnerConfigM :=
  [{ id := "sigrid", name := "Sigrid (OpenAI)", defaultModel := "gpt-5", hasCleanup := true },
   { id := "claude", name := "Claude Code CLI", defaultModel := "sonnet", hasCleanup := true }]

/-- `RUNNERS[runnerId].defaultModel` for a registered id. -/
def runnerModel (rid : String) : String :=
  ((RUNNERS.find? (fun c => c.id == rid)).map (fun c => c.defaultModel)).getD ""

/-! ## `parseRunnerFilter` -/

/-- `parseRunnerFilter(filter, allRunners)`: empty filter selects every
registered runner; otherwise split on commas, trim, and reject unknown
ids. -/
def parseRunnerFilter (filter : String) (allRunners : List String) :
    Except String (List String) :=
  if filter == "" then .ok allRunners
  else
    let requested := (splitCommaL filter.data).map (fun l => String.mk (trimL l))
    let invalid := requested.filter (fun r => !(allRunners.contains r))
    if invalid.length > 0 then
      .error ("Invalid runner(s): " ++ String.intercalate ", " invalid ++
        ". Available runners: " ++ String.intercalate ", " allRunners)
    else .ok requested

/-! ## `compileApp` -/

/-- The payload of a rejected `execAsync` call (`error.message`,
`error.stderr`, `error.stdout`); a command timeout also surfaces as such a
rejection. -/
structure ExecErrInfo where
  message : String
  stderr : Option String := none
  stdout : Option String := none
deriving Repr, DecidableEq, Inhabited

/-- JavaScript `a || b` on an optional string field: `undefined` and `""`
are falsy. -/
def jsOr (v : Option String) (fallback : String) : String :=
  match v with
  | some s => if s == "" then fallback else s
  | none => fallback

/-- Environment for one `compileApp` call: does `node_modules` exist, how do
`npm install` / `npm run build` behave, and the elapsed wall-clock values
observed at each measurement point. -/
structure CompileEnv where
  nodeModulesExists : Bool
  installOutcome : Except ExecErrInfo Unit
  buildOutcome : Except ExecErrInfo (String × String)
  installDurationMs : Nat
  buildDurationMs : Nat
  durationAtInstallFail : Nat
  durationAtBuildDone : Nat
  durationAtFail : Nat
deriving Repr, DecidableEq, Inhabited

/-- The `npm run build` step of `compileApp` (shared tail of both the
install-needed and install-skipped paths).  The second component records
whether the build command ran. -/
def compileBuild (env : CompileEnv) (installNeeded : Bool) : CompileResult × Bool :=
  match env.buildOutcome with
  | .ok out =>
    ({ success := true
       duration := env.durationAtBuildDone
       buildDuration := some env.buildDurationMs
       installNeeded := some installNeeded
       stdout := some (strTake out.1 500)
       stderr := some (strTake out.2 500) }, true)
  | .error e =>
    ({ success := false
       duration := env.durationAtFail
       error := some e.message
       stderr := some (jsOr e.stderr "")
       stdout := some (jsOr e.stdout "") }, true)

/-- `compileApp(workspacePath)`: install dependencies when `node_modules`
is absent (an install failure returns immediately with the raw captured
stderr), then run the build.  The second component records whether the
build step ran. -/
def compileApp (env : CompileEnv) : CompileResult × Bool :=
  let installNeeded := !env.nodeModulesExists
  if installNeeded then
    match env.installOutcome with
    | .error e =>
      ({ success := false
         duration := env.durationAtInstallFail
         installDuration := some env.installDurationMs
         error := some "npm install failed"
         stderr := some (jsOr e.stderr e.message) }, false)
    | .ok _ => compileBuild env installNeeded
  else compileBuild env installNeeded

/-! ## `runApp` (serve stage) -/

/-- One subprocess event observed by the serve stage. -/
inductive ServeEvent where
  | stdoutData (text : String)
  | stderrData (text : String)
  | errEvent (msg : String)
  | exitEvent (code : Option Int)
deriving Repr, DecidableEq, Inhabited

/-- An event together with its arrival time, in milliseconds since the
serve stage started. -/
structure TimedEvent where
  atMs : Nat
  ev : ServeEvent
deriving Repr, DecidableEq, Inhabited

/-- The mutable state of one `runApp` promise executor: the accumulated
`output` string, the `resolved` latch, the first value the promise settled
with (later `resolve`/`reject` calls cannot change it), and the number of
`resolve`/`reject` invocations. -/
structure ServeState where
  output : String
  resolvedFlag : Bool
  settled : Option (Except String RunResult)
  settleCalls : Nat
deriving Repr, DecidableEq, Inhabited

/-- The `exit` handler's message, `Server exited with code ${code}` (a
`null` code prints as `null`). -/
def exitMsg (code : Option Int) : String :=
  "Server exited with code " ++ (match code with | some n => toString n | none => "null")

/-- One event handler dispatch of `runApp`: stdout appends to `output` and,
if the `resolved` latch is still clear and the cleaned chunk matches the
ready pattern, sets the latch and resolves; stderr only appends; `error`
and `exit` reject when the latch is clear.  A settle call records the first
settlement and increments the call counter. -/
def stepServe (st : ServeState) (e : TimedEvent) : ServeState :=
  match e.ev with
  | .stdoutData t =>
    let output := st.output ++ t
    if st.resolvedFlag then { st with output }
    else
      match matchLocalUrl (stripAnsi t) with
      | some url =>
        { output
          resolvedFlag := true
          settled := st.settled.or (some (.ok
            { success := true, serverUrl := some url, hasProcess := true
              duration := e.atMs, output := some (strTake output 1000) }))
          settleCalls := st.settleCalls + 1 }
      | none => { st with output }
  | .stderrData t => { st with output := st.output ++ t }
  | .errEvent msg =>
    if st.resolvedFlag then st
    else
      { st with resolvedFlag := true
                settled := st.settled.or (some (.error msg))
                settleCalls := st.settleCalls + 1 }
  | .exitEvent code =>
    if st.resolvedFlag then st
    else
      { st with resolvedFlag := true
                settled := st.settled.or (some (.error (exitMsg code)))
                settleCalls := st.settleCalls + 1 }

/-- The initial promise-executor state of `runApp`. -/
def serveInit : ServeState :=
  { output := "", resolvedFlag := false, settled := none, settleCalls := 0 }

/-- The executor state after the events arriving before the 30 s timer are
handled. -/
def runAppEarly (events : List TimedEvent) : ServeState :=
  (events.filter (fun e => decide (e.atMs < 30000))).foldl stepServe serveInit

/-- The timer step: when no early handler resolved, the timeout fires —
it rejects (recording a settle call) but, exactly as in the source, does
**not** set the `resolved` latch. -/
def serveTimerStep (st : ServeState) : ServeState :=
  if st.resolvedFlag then st
  else
    { st with settled := st.settled.or (some (.error "Server startup timeout (30s)"))
              settleCalls := st.settleCalls + 1 }

/-- The executor state after the timer step and the events arriving at or
after the 30 s mark. -/
def runAppFinal (events : List TimedEvent) : ServeState :=
  (events.filter (fun e => decide (30000 ≤ e.atMs))).foldl stepServe
    (serveTimerStep (runAppEarly events))

/-- `runApp(workspacePath)` over a chronological event list: the promise's
settlement (its first `resolve`/`reject` value), whether the timeout path
killed the child (`child.kill()` runs iff the latch was still clear when
the timer fired), and the total number of `resolve`/`reject`
invocations. -/
def runApp (events : List TimedEvent) : Except String RunResult × Bool × Nat :=
  ((runAppFinal events).settled.getD (.error "never settled"),
   !(runAppEarly events).resolvedFlag,
   (runAppFinal events).settleCalls)

/-- Does this event fire a resolution path of `runApp` when the latch is
clear: a stdout chunk matching the ready pattern, an `error` event, or an
`exit` event?  (Stderr chunks only extend the captured excerpt.) -/
def resolvesServe (e : TimedEvent) : Bool :=
  match e.ev with
  | .stdoutData t => (matchLocalUrl (stripAnsi t)).isSome
  | .stderrData _ => false
  | .errEvent _ => true
  | .exitEvent _ => true

/-! ## `stopApp` -/

/-- A child-process handle at the time `stopApp` is called: the Node
`.killed` property (true after a signal was successfully *sent*, which is
not the same as having exited), whether the process still exists so that
signals can be delivered, and whether it exits within the 5 s grace
period.  The source consults only `.killed`; `exitsWithin5s` is carried so
the spec-level condition can be stated. -/
structure ProcHandle where
  killedFlag : Bool
  alive : Bool
  exitsWithin5s : Bool
deriving Repr, DecidableEq, Inhabited

/-- Which signals one `stopApp` call issues. -/
structure StopTrace where
  gracefulSent : Bool
  sigkillSent : Bool
deriving Repr, DecidableEq, Inhabited

/-- `stopApp(childProcess)`: a null or already-`.killed` handle returns at
once; otherwise `kill()` sends the graceful signal (setting `.killed` iff
delivery succeeded) and the 5 s timer sends `SIGKILL` only when `.killed`
is still false — it never consults whether the process actually exited. -/
def stopApp (p : Option ProcHandle) : StopTrace :=
  match p with
  | none => { gracefulSent := false, sigkillSent := false }
  | some h =>
    if h.killedFlag then { gracefulSent := false, sigkillSent := false }
    else
      let killedAfter := h.alive
      { gracefulSent := true, sigkillSent := !killedAfter }

/-! ## `runSingleRunner` -/

/-- Environment for one `runSingleRunner` invocation: the outcome of the
code-generation call (an `Except.error` models a rejected adapter promise),
the compile-stage environment, the serve-stage event stream, the analyze
result (`analyzeApp` catches internally and always resolves), the outcome
of `cleanupWorkspace`, and the elapsed `Date.now() - startTime` values at
each possible return point. -/
structure RunnerEnv where
  gen : Except String BenchmarkResult
  compileEnv : CompileEnv
  serveEvents : List TimedEvent
  analyze : AnalyzeResult
  cleanup : Except String Unit
  tGenFail : Nat
  tCompileFail : Nat
  tServeFail : Nat
  tDone : Nat
  tCatch : Nat
deriving Repr, DecidableEq, Inhabited

/-- Which steps one `runSingleRunner` invocation performed.  `cleanedUp` is
true only when `cleanupWorkspace` was invoked and resolved; `caught` is
true when the outer `catch` produced the returned result; `serveKilled` is
true when the serve timeout killed the dev server. -/
structure ExecTrace where
  compileCalled : Bool
  serveCalled : Bool
  analyzeCalled : Bool
  stopCalls : Nat
  cleanupCalled : Bool
  cleanedUp : Bool
  caught : Bool
  serveKilled : Bool
deriving Repr, DecidableEq, Inhabited

/-- The result built by the executor's outer `catch` block: every stage
duration is zero and no `workspaceDir`/`screenshotPath` is attached, even
when earlier stages had completed. -/
def catchResult (rid model msg : String) (t : Nat) : RunnerBenchmarkResult :=
  { runner := rid, model := model, success := false, error := some msg
    totalDuration := t
    durations := { codeGeneration := 0, compilation := 0, serverStartup := 0, analysis := 0 }
    errors := { consoleErrors := 0, pageErrors := 0 } }

/-- `runSingleRunner(runnerId, prompt, keepWorkspaces)`: generation,
compile, serve, analyze, stop, then workspace cleanup (only when all stages
succeeded, cleanup was not opted out of, a `cleanupWorkspace` member exists
and the workspace path is truthy).  A rejection from the generation call,
the serve promise or the cleanup call lands in the outer `catch`. -/
def runSingleRunner (cfg : RunnerConfigM) (env : RunnerEnv) (keepWorkspaces : Bool) :
    RunnerBenchmarkResult × ExecTrace :=
  let model := cfg.defaultModel
  match env.gen with
  | .error msg =>
    (catchResult cfg.id model msg env.tCatch,
     { compileCalled := false, serveCalled := false, analyzeCalled := false, stopCalls := 0
       cleanupCalled := false, cleanedUp := false, caught := true, serveKilled := false })
  | .ok buildResult =>
    if buildResult.build.success = false then
      ({ runner := cfg.id, model := model, success := false
         error := some "Code generation failed"
         totalDuration := env.tGenFail
         durations := { codeGeneration := buildResult.build.duration, compilation := 0
                        serverStartup := 0, analysis := 0 }
         errors := { consoleErrors := 0, pageErrors := 0 } },
       { compileCalled := false, serveCalled := false, analyzeCalled := false, stopCalls := 0
         cleanupCalled := false, cleanedUp := false, caught := false, serveKilled := false })
    else
      let compileResult := (compileApp env.compileEnv).1
      if compileResult.success = false then
        ({ runner := cfg.id, model := model, success := false
           error := some "Compilation failed"
           totalDuration := env.tCompileFail
           durations := { codeGeneration := buildResult.build.duration
                          compilation := compileResult.duration
                          serverStartup := 0, analysis := 0 }
           errors := { consoleErrors := 0, pageErrors := 0 }
           workspaceDir := some buildResult.workspaceDir },
         { compileCalled := true, serveCalled := false, analyzeCalled := false, stopCalls := 0
           cleanupCalled := false, cleanedUp := false, caught := false, serveKilled := false })
      else
        let serveOut := runApp env.serveEvents
        match serveOut.1 with
        | .error msg =>
          -- the serve promise rejected, so `serverProcess` was never
          -- assigned and the catch block has nothing to stop
          (catchResult cfg.id model msg env.tCatch,
           { compileCalled := true, serveCalled := true, analyzeCalled := false, stopCalls := 0
             cleanupCalled := false, cleanedUp := false, caught := true
             serveKilled := serveOut.2.1 })
        | .ok runResult =>
          if runResult.success = false then
            -- present in the source but unreachable: `runApp` only ever
            -- resolves with `success: true`
            ({ runner := cfg.id, model := model, success := false
               error := some "Server startup failed"
               totalDuration := env.tServeFail
               durations := { codeGeneration := buildResult.build.duration
                              compilation := compileResult.duration
                              serverStartup := runResult.duration, analysis := 0 }
               errors := { consoleErrors := 0, pageErrors := 0 }
               workspaceDir := some buildResult.workspaceDir },
             { compileCalled := true, serveCalled := true, analyzeCalled := false, stopCalls := 0
               cleanupCalled := false, cleanedUp := false, caught := false
               serveKilled := serveOut.2.1 })
          else
            let analyzeResult := env.analyze
            let result : RunnerBenchmarkResult :=
              { runner := cfg.id, model := model, success := true
                totalDuration := env.tDone
                durations := { codeGeneration := buildResult.build.duration
                               compilation := compileResult.duration
                               serverStartup := runResult.duration
                               analysis := analyzeResult.duration }
                errors := { consoleErrors := (analyzeResult.consoleErrors.getD []).length
                            pageErrors := (analyzeResult.pageErrors.getD []).length }
                screenshotPath := analyzeResult.screenshotPath
                workspaceDir := some buildResult.workspaceDir }
            if !keepWorkspaces && cfg.hasCleanup && !(buildResult.workspaceDir == "") then
              match env.cleanup with
              | .ok _ =>
                (result,
                 { compileCalled := true, serveCalled := true, analyzeCalled := true
                   stopCalls := 1, cleanupCalled := true, cleanedUp := true, caught := false
                   serveKilled := serveOut.2.1 })
              | .error msg =>
                -- the cleanup rejection escapes to the outer catch, which
                -- stops the (already stopped) server once more and returns
                -- the zeroed failure result
                (catchResult cfg.id model msg env.tCatch,
                 { compileCalled := true, serveCalled := true, analyzeCalled := true
                   stopCalls := 2, cleanupCalled := true, cleanedUp := false, caught := true
                   serveKilled := serveOut.2.1 })
            else
              (result,
               { compileCalled := true, serveCalled := true, analyzeCalled := true
                 stopCalls := 1, cleanupCalled := false, cleanedUp := false, caught := false
                 serveKilled := serveOut.2.1 })

/-! ## `runMultiRunnerBenchmark` -/

/-- Per-invocation environment of the orchestrator: a runner environment
for each runner id, and an optional executor-level fault (an uncaught
exception thrown out of `runSingleRunner`, which the orchestrator's
per-runner `catch` converts into a synthetic failed result). -/
structure OrchestraEnv where
  envOf : String → RunnerEnv
  fault : String → Option String

/-- The synthetic failed result the orchestrator records when a runner's
executor throws. -/
def syntheticFailed (rid msg : String) : RunnerBenchmarkResult :=
  { runner := rid, model := runnerModel rid, success := false, error := some msg
    totalDuration := 0
    durations := { codeGeneration := 0, compilation := 0, serverStartup := 0, analysis := 0 }
    errors := { consoleErrors := 0, pageErrors := 0 } }

/-- One iteration of the orchestrator's runner loop: run the executor in
isolation and convert an escaped exception into a synthetic failed
result. -/
def orchestrateOne (env : OrchestraEnv) (keep : Bool) (rid : String) : RunnerBenchmarkResult :=
  match env.fault rid with
  | some msg => syntheticFailed rid msg
  | none =>
    match RUNNERS.find? (fun c => c.id == rid) with
    | some cfg => (runSingleRunner cfg (env.envOf rid) keep).1
    | none => syntheticFailed rid "runner not registered"

/-- `path.basename`, for the screenshot rewrite in the persisted
metadata. -/
def pathBasename (p : String) : String :=
  ((p.data.reverse.takeWhile (fun c => !(c == '/'))).reverse).asString

/-- The per-result rewrite applied when assembling `metadata.runners`: a
truthy `screenshotPath` is replaced by its basename. -/
def screenshotTweak (r : RunnerBenchmarkResult) : RunnerBenchmarkResult :=
  { r with screenshotPath :=
      match r.screenshotPath with
      | some s => if s == "" then none else some (pathBasename s)
      | none => none }

/-- `runMultiRunnerBenchmark(appName, prompt, { filter, keepWorkspaces })`:
validate the filter, run each selected runner sequentially, and aggregate
the summary.  `timestamp`/`dateStr` stand for the values derived from
`new Date()`. -/
def runMultiRunnerBenchmark (env : OrchestraEnv) (filter : String) (keep : Bool)
    (appName prompt timestamp dateStr : String) : Except String BenchmarkMetadata :=
  match parseRunnerFilter filter (RUNNERS.map (fun c => c.id)) with
  | .error e => .error e
  | .ok runnersToRun =>
    let results := runnersToRun.map (orchestrateOne env keep)
    let successfulRunners := results.filter (fun r => r.success)
    let failedRunners := results.filter (fun r => !r.success)
    let fastestPair : Option String × Option Nat :=
      match successfulRunners with
      | [] => (none, none)
      | h :: t =>
        let fastest := t.foldl
          (fun min r => if r.totalDuration < min.totalDuration then r else min) h
        (some fastest.runner, some fastest.totalDuration)
    .ok { appName := appName, timestamp := timestamp, dateStr := dateStr, prompt := prompt
          runners := results.map screenshotTweak
          summary := { totalRunners := results.length
                       successfulRunners := successfulRunners.length
                       failedRunners := failedRunners.length
                       fastestRunner := fastestPair.1
                       fastestTime := fastestPair.2 } }

/-- The first element of `l` whose `totalDuration` is minimal — the
specification-side description of the fastest-runner selection (ties broken
in favour of the earliest element). -/
def firstFastest (l : List RunnerBenchmarkResult) : Option RunnerBenchmarkResult :=
  l.find? (fun r => l.all (fun s => decide (r.totalDuration ≤ s.totalDuration)))

/-- The fold the orchestrator uses to pick the fastest successful runner
(`successfulRunners.reduce(...)`, written with the head as the
accumulator seed). -/
def foldFast (h : RunnerBenchmarkResult) (t : List RunnerBenchmarkResult) :
    RunnerBenchmarkResult :=
  t.foldl (fun min r => if r.totalDuration < min.totalDuration then r else min) h

/-- JavaScript truthiness of `buildResult.workspaceDir` after a successful
generation call (an error means the value was never produced). -/
def genWsTruthy (env : RunnerEnv) : Bool :=
  match env.gen with
  | .ok br => !(br.workspaceDir == "")
  | .error _ => false

/-- Did this serve event carry a stdout chunk matching the ready
pattern? -/
def isReadyChunk (e : TimedEvent) : Bool :=
  match e.ev with
  | .stdoutData t => (matchLocalUrl (stripAnsi t)).isSome
  | _ => false

/-! ## Concrete execution environments

Small closed instances used to evaluate the embedding: a fully successful
pipeline (`envAllOk`) and per-scenario variations of it. -/

/-- The `sigrid` registry entry. -/
def cfgSigrid : RunnerConfigM :=
  { id := "sigrid", name := "Sigrid (OpenAI)", defaultModel := "gpt-5", hasCleanup := true }

/-- Compile environment: dependencies cached, build succeeds. -/
def okCompileEnv : CompileEnv :=
  { nodeModulesExists := true, installOutcome := .ok (), buildOutcome := .ok ("built", ""),
    installDurationMs := 0, buildDurationMs := 1500, durationAtInstallFail := 0,
    durationAtBuildDone := 1500, durationAtFail := 0 }

/-- Compile environment: `node_modules` absent and `npm install` exits
non-zero. -/
def failCompileEnv : CompileEnv :=
  { nodeModulesExists := false,
    installOutcome := .error { message := "Command failed: npm install" },
    buildOutcome := .ok ("built", ""),
    installDurationMs := 900, buildDurationMs := 0, durationAtInstallFail := 950,
    durationAtBuildDone := 0, durationAtFail := 0 }

/-- 501 captured stderr characters — one more than the 500-character
excerpt bound claimed for install failures. -/
def longStderr : String := String.mk (List.replicate 501 'e')

/-- Compile environment: install fails with a long captured stderr. -/
def longStderrCompileEnv : CompileEnv :=
  { failCompileEnv with
    installOutcome := .error { message := "Command failed: npm install", stderr := some longStderr } }

/-- Serve events: the dev server prints its ready line 640 ms in. -/
def okServeEvents : List TimedEvent :=
  [⟨120, .stderrData "vite starting\n"⟩, ⟨640, .stdoutData "  Local:   http://localhost:5173/\n"⟩]

/-- The generation result shared by the successful environments. -/
def brOk : BenchmarkResult :=
  { build := { success := true, duration := 2000 }, workspaceDir := "/tmp/ws-sigrid" }

/-- A fully successful single-runner environment. -/
def envAllOk : RunnerEnv :=
  { gen := .ok brOk
    compileEnv := okCompileEnv, serveEvents := okServeEvents
    analyze := { success := true, duration := 900
                 screenshotPath := some "/res/screens/sigrid-temp-1.png"
                 consoleErrors := some [], pageErrors := some [] }
    cleanup := .ok (), tGenFail := 0, tCompileFail := 0, tServeFail := 0
    tDone := 12000, tCatch := 7777 }

/-- All stages succeed but `cleanupWorkspace` rejects. -/
def envC3 : RunnerEnv := { envAllOk with cleanup := .error "EBUSY: resource busy" }

/-- The compile stage fails (install exits non-zero). -/
def envC4 : RunnerEnv := { envAllOk with compileEnv := failCompileEnv }

/-- The dev server exits 1 s in, before any ready line and long before the
30 s timeout. -/
def envC5x : RunnerEnv := { envAllOk with serveEvents := [⟨1000, .exitEvent (some 1)⟩] }

/-- The dev server emits output but never the ready pattern, and never
exits: the 30 s timeout fires. -/
def envC5w : RunnerEnv :=
  { envAllOk with serveEvents :=
      [⟨900, .stderrData "building...\n"⟩, ⟨2000, .stdoutData "vite dev server\n"⟩] }

/-- A failing analyze stage (navigation timeout). -/
def analyzeFailed : AnalyzeResult :=
  { success := false, duration := 30300, error := some "Timeout 30000ms exceeded"
    consoleErrors := some [], pageErrors := some [] }

/-- Generation, compile and serve succeed; analyze reports failure; cleanup
rejects. -/
def envC9x : RunnerEnv :=
  { envAllOk with analyze := analyzeFailed, cleanup := .error "EPERM: operation not permitted" }

/-- Generation, compile and serve succeed; analyze reports failure; cleanup
resolves. -/
def envC9w : RunnerEnv := { envAllOk with analyze := analyzeFailed }

/-- The serve spawn fails with an `error` event (promise rejection caught
at the executor's outer boundary). -/
def envC10w : RunnerEnv :=
  { envAllOk with serveEvents := [⟨700, .errEvent "spawn npm ENOENT"⟩] }

/-- Serve-stage events for the post-timeout resolve call: the only ready
line arrives after the 30 s timer has already rejected. -/
def lateMatchEvents : List TimedEvent :=
  [⟨31000, .stdoutData "  Local:   http://localhost:5173/\n"⟩]

/-- Non-resolving early chunks preceding the ready line. -/
def preChunks : List TimedEvent :=
  [⟨10, .stderrData "starting\n"⟩, ⟨50, .stdoutData "\x1b[32mvite ready\x1b[0m\n"⟩]

/-- The ready line, ANSI-coloured as vite prints it. -/
def readyChunk : TimedEvent :=
  ⟨1200, .stdoutData "\x1b[2m  \x1b[0mLocal:   \x1b[36mhttp://localhost:5173/\x1b[0m\n"⟩

/-- Chunks arriving after the stage already resolved, including a second
ready line and a late exit. -/
def postChunks : List TimedEvent :=
  [⟨1500, .stdoutData "  Local:   http://localhost:9999/\n"⟩, ⟨40000, .exitEvent (some 0)⟩]

/-- Orchestrator environment in which every executor invocation throws. -/
def envAllFault : OrchestraEnv := { envOf := fun _ => envAllOk, fault := fun _ => some "boom" }

/-- The claude-side environment of the two-runner comparison scenario:
identical pipeline, total duration 9000 ms. -/
def envClaudeFast : RunnerEnv :=
  { envAllOk with tDone := 9000
                  gen := .ok { build := { success := true, duration := 1500 }, workspaceDir := "/tmp/ws-claude" } }

/-- Orchestrator environment of the comparison scenario: both runners
succeed, sigrid in 12000 ms and claude in 9000 ms. -/
def envTwoOk : OrchestraEnv :=
  { envOf := fun rid => if rid == "claude" then envClaudeFast else envAllOk
    fault := fun _ => none }

/-- Metadata produced by the all-faulted invocation. -/
def mdAllFault : BenchmarkMetadata :=
  (runMultiRunnerBenchmark envAllFault "" false "todo-app" "Build a todo app" "T" "20251012-120000").toOption.getD default

/-- Metadata produced by the two-runner comparison invocation. -/
def mdTwoOk : BenchmarkMetadata :=
  (runMultiRunnerBenchmark envTwoOk "" true "todo-app" "Build a todo app" "T" "20251012-120000").toOption.getD default

/-- All four per-stage durations zero, as in every catch-produced
result. -/
def zeroDurations : StageDurations :=
  { codeGeneration := 0, compilation := 0, serverStartup := 0, analysis := 0 }

/-- The serve-stage resolution of `okServeEvents`. -/
def rrOk : RunResult :=
  { success := true, serverUrl := some "http://localhost:5173", hasProcess := true
    duration := 640, output := some "vite starting\n  Local:   http://localhost:5173/\n" }

/-! ## Serve-stage lemmas -/

lemma stepServe_stderr (st : ServeState) (a : Nat) (t : String) :
    stepServe st ⟨a, .stderrData t⟩ = { st with output := st.output ++ t } := rfl

lemma stepServe_stdout_nomatch (st : ServeState) (a : Nat) (t : String)
    (hflag : st.resolvedFlag = false) (hmm : matchLocalUrl (stripAnsi t) = none) :
    stepServe st ⟨a, .stdoutData t⟩ = { st with output := st.output ++ t } := by
  simp [stepServe, hflag, hmm]

lemma stepServe_stdout_match (st : ServeState) (a : Nat) (t url : String)
    (hflag : st.resolvedFlag = false) (hmm : matchLocalUrl (stripAnsi t) = some url) :
    stepServe st ⟨a, .stdoutData t⟩ =
      { output := st.output ++ t
        resolvedFlag := true
        settled := st.settled.or (some (.ok
          { success := true, serverUrl := some url, hasProcess := true
            duration := a, output := some (strTake (st.output ++ t) 1000) }))
        settleCalls := st.settleCalls + 1 } := by
  simp [stepServe, hflag, hmm]

lemma stepServe_resolved (st : ServeState) (e : TimedEvent) (hflag : st.resolvedFlag = true) :
    (stepServe st e).resolvedFlag = true ∧ (stepServe st e).settled = st.settled ∧
      (stepServe st e).settleCalls = st.settleCalls := by
  rcases e with ⟨a, ev⟩
  rcases ev with t | t | m | c <;> simp [stepServe, hflag]

lemma stepServe_settled_some (st : ServeState) (e : TimedEvent) (v : Except String RunResult)
    (h : st.settled = some v) : (stepServe st e).settled = some v := by
  rcases e with ⟨a, ev⟩
  rcases ev with t | t | m | c
  · by_cases hflag : st.resolvedFlag
    · simp [stepServe, hflag, h]
    · simp only [stepServe, Bool.not_eq_true] at *
      rcases hmm : matchLocalUrl (stripAnsi t) with _ | url <;> simp [hflag, hmm, h, Option.or]
  · exact h
  · by_cases hflag : st.resolvedFlag <;> simp [stepServe, hflag, h, Option.or]
  · by_cases hflag : st.resolvedFlag <;> simp [stepServe, hflag, h, Option.or]

lemma foldl_no_resolve (l : List TimedEvent) (st : ServeState)
    (hflag : st.resolvedFlag = false)
    (hl : ∀ e ∈ l, resolvesServe e = false) :
    (l.foldl stepServe st).resolvedFlag = false ∧ (l.foldl stepServe st).settled = st.settled ∧
      (l.foldl stepServe st).settleCalls = st.settleCalls := by
  induction l generalizing st with
  | nil => exact ⟨hflag, rfl, rfl⟩
  | cons e t ih =>
    have he := hl e (by simp)
    have hstep : (stepServe st e).resolvedFlag = false ∧ (stepServe st e).settled = st.settled ∧
        (stepServe st e).settleCalls = st.settleCalls := by
      rcases e with ⟨a, ev⟩
      rcases ev with s | s | m | c
      · simp only [resolvesServe] at he
        rcases hmm : matchLocalUrl (stripAnsi s) with _ | url
        · rw [stepServe_stdout_nomatch st a s hflag hmm]
          exact ⟨hflag, rfl, rfl⟩
        · rw [hmm] at he
          simp at he
      · rw [stepServe_stderr]
        exact ⟨hflag, rfl, rfl⟩
      · simp only [resolvesServe] at he
        cases he
      · simp only [resolvesServe] at he
        cases he
    obtain ⟨h1, h2, h3⟩ := hstep
    obtain ⟨g1, g2, g3⟩ := ih (stepServe st e) h1 (fun x hx => hl x (by simp [hx]))
    refine ⟨g1, ?_, ?_⟩
    · rw [List.foldl_cons, g2, h2]
    · rw [List.foldl_cons, g3, h3]

lemma foldl_resolved (l : List TimedEvent) (st : ServeState)
    (hflag : st.resolvedFlag = true) :
    (l.foldl stepServe st).resolvedFlag = true ∧ (l.foldl stepServe st).settled = st.settled ∧
      (l.foldl stepServe st).settleCalls = st.settleCalls := by
  induction l generalizing st with
  | nil => exact ⟨hflag, rfl, rfl⟩
  | cons e t ih =>
    obtain ⟨h1, h2, h3⟩ := stepServe_resolved st e hflag
    obtain ⟨g1, g2, g3⟩ := ih (stepServe st e) h1
    refine ⟨g1, ?_, ?_⟩
    · rw [List.foldl_cons, g2, h2]
    · rw [List.foldl_cons, g3, h3]

lemma foldl_settled_some (l : List TimedEvent) (st : ServeState) (v : Except String RunResult)
    (h : st.settled = some v) : (l.foldl stepServe st).settled = some v := by
  induction l generalizing st with
  | nil => exact h
  | cons e t ih => exact ih (stepServe st e) (stepServe_settled_some st e v h)

/-- If no event arriving before the 30 s mark fires a resolution path, the
serve stage rejects with the startup-timeout message and the timer kills
the child. -/
lemma runApp_timeout (events : List TimedEvent)
    (h : ∀ e ∈ events, e.atMs < 30000 → resolvesServe e = false) :
    (runApp events).1 = .error "Server startup timeout (30s)" ∧ (runApp events).2.1 = true := by
  have hearly : ∀ e ∈ events.filter (fun e => decide (e.atMs < 30000)), resolvesServe e = false := by
    intro e he
    rw [List.mem_filter] at he
    exact h e he.1 (by simpa using he.2)
  obtain ⟨f1, f2, f3⟩ := foldl_no_resolve _ serveInit rfl hearly
  have he1 : (runAppEarly events).resolvedFlag = false := f1
  have he2 : (runAppEarly events).settled = none := f2
  have htimer : (serveTimerStep (runAppEarly events)).settled =
      some (.error "Server startup timeout (30s)") := by
    unfold serveTimerStep
    rw [he1]
    simp [he2, Option.or]
  have hfin : (runAppFinal events).settled = some (.error "Server startup timeout (30s)") := by
    unfold runAppFinal
    exact foldl_settled_some _ _ _ htimer
  unfold runApp
  rw [hfin, he1]
  exact ⟨rfl, rfl⟩

/-- If every event before a matching stdout chunk is non-resolving, the
serve stage resolves with that chunk's URL, the child is not killed, and
exactly one settle call is made — whatever arrives afterwards. -/
lemma runApp_first_match (pre post : List TimedEvent) (a : Nat) (t url : String)
    (ha : a < 30000) (hm : matchLocalUrl (stripAnsi t) = some url)
    (hpre : ∀ x ∈ pre, x.atMs < 30000 ∧ resolvesServe x = false) :
    runApp (pre ++ ⟨a, .stdoutData t⟩ :: post) =
      (.ok { success := true, serverUrl := some url, hasProcess := true, duration := a
             output := some (strTake ((pre.foldl stepServe serveInit).output ++ t) 1000) },
       false, 1) := by
  have hfilter : (pre ++ ⟨a, .stdoutData t⟩ :: post).filter (fun e => decide (e.atMs < 30000)) =
      pre ++ ⟨a, .stdoutData t⟩ :: post.filter (fun e => decide (e.atMs < 30000)) := by
    rw [List.filter_append]
    congr 1
    · exact List.filter_eq_self.mpr (fun x hx => by simpa using (hpre x hx).1)
    · rw [List.filter_cons]
      simp [ha]
  obtain ⟨f1, f2, f3⟩ := foldl_no_resolve pre serveInit rfl (fun x hx => (hpre x hx).2)
  have hstepmatch := stepServe_stdout_match (pre.foldl stepServe serveInit) a t url f1 hm
  set rOk : RunResult :=
    { success := true, serverUrl := some url, hasProcess := true, duration := a
      output := some (strTake ((pre.foldl stepServe serveInit).output ++ t) 1000) } with hrOk
  have hsettled : (stepServe (pre.foldl stepServe serveInit) ⟨a, .stdoutData t⟩).settled =
      some (.ok rOk) := by
    rw [hstepmatch, f2]
    rfl
  have hflagR : (stepServe (pre.foldl stepServe serveInit) ⟨a, .stdoutData t⟩).resolvedFlag = true := by
    rw [hstepmatch]
  have hcalls : (stepServe (pre.foldl stepServe serveInit) ⟨a, .stdoutData t⟩).settleCalls = 1 := by
    rw [hstepmatch]
    dsimp only
    rw [f3]
    rfl
  have hearlyEq : runAppEarly (pre ++ ⟨a, .stdoutData t⟩ :: post) =
      (post.filter (fun e => decide (e.atMs < 30000))).foldl stepServe
        (stepServe (pre.foldl stepServe serveInit) ⟨a, .stdoutData t⟩) := by
    unfold runAppEarly
    rw [hfilter, List.foldl_append, List.foldl_cons]
  obtain ⟨g1, g2, g3⟩ := foldl_resolved (post.filter (fun e => decide (e.atMs < 30000)))
    (stepServe (pre.foldl stepServe serveInit) ⟨a, .stdoutData t⟩) hflagR
  have hE1 : (runAppEarly (pre ++ ⟨a, .stdoutData t⟩ :: post)).resolvedFlag = true := by
    rw [hearlyEq]
    exact g1
  have hE2 : (runAppEarly (pre ++ ⟨a, .stdoutData t⟩ :: post)).settled = some (.ok rOk) := by
    rw [hearlyEq, g2, hsettled]
  have hE3 : (runAppEarly (pre ++ ⟨a, .stdoutData t⟩ :: post)).settleCalls = 1 := by
    rw [hearlyEq, g3, hcalls]
  have htimer : serveTimerStep (runAppEarly (pre ++ ⟨a, .stdoutData t⟩ :: post)) =
      runAppEarly (pre ++ ⟨a, .stdoutData t⟩ :: post) := by
    unfold serveTimerStep
    rw [hE1]
    rfl
  obtain ⟨k1, k2, k3⟩ := foldl_resolved
    ((pre ++ ⟨a, .stdoutData t⟩ :: post).filter (fun e => decide (30000 ≤ e.atMs)))
    (runAppEarly (pre ++ ⟨a, .stdoutData t⟩ :: post)) hE1
  unfold runApp
  unfold runAppFinal
  rw [htimer, k2, k3, hE1, hE2, hE3]
  rfl

lemma stepServe_ok_inv (st : ServeState) (e : TimedEvent)
    (hP : ∀ r, st.settled = some (.ok r) → r.success = true) :
    ∀ r, (stepServe st e).settled = some (.ok r) → r.success = true := by
  intro r hr
  rcases hsett : st.settled with _ | v
  · rcases e with ⟨a, ev⟩
    rcases ev with t | t | m | c
    · by_cases hflag : st.resolvedFlag
      · obtain ⟨_, h2, _⟩ := stepServe_resolved st ⟨a, .stdoutData t⟩ hflag
        rw [h2, hsett] at hr
        cases hr
      · simp only [Bool.not_eq_true] at hflag
        rcases hmm : matchLocalUrl (stripAnsi t) with _ | url
        · rw [stepServe_stdout_nomatch st a t hflag hmm] at hr
          dsimp only at hr
          rw [hsett] at hr
          cases hr
        · rw [stepServe_stdout_match st a t url hflag hmm] at hr
          dsimp only at hr
          rw [hsett] at hr
          simp only [Option.or] at hr
          have hv := Option.some.inj hr
          have hb := Except.ok.inj hv
          rw [← hb]
    · rw [stepServe_stderr] at hr
      dsimp only at hr
      rw [hsett] at hr
      cases hr
    · by_cases hflag : st.resolvedFlag
      · obtain ⟨_, h2, _⟩ := stepServe_resolved st ⟨a, .errEvent m⟩ hflag
        rw [h2, hsett] at hr
        cases hr
      · simp only [Bool.not_eq_true] at hflag
        simp only [stepServe, hflag, Bool.false_eq_true, if_false] at hr
        rw [hsett] at hr
        simp only [Option.or] at hr
        cases hr
    · by_cases hflag : st.resolvedFlag
      · obtain ⟨_, h2, _⟩ := stepServe_resolved st ⟨a, .exitEvent c⟩ hflag
        rw [h2, hsett] at hr
        cases hr
      · simp only [Bool.not_eq_true] at hflag
        simp only [stepServe, hflag, Bool.false_eq_true, if_false] at hr
        rw [hsett] at hr
        simp only [Option.or] at hr
        cases hr
  · rw [stepServe_settled_some st e v hsett] at hr
    exact hP r (by rw [hsett, Option.some.inj hr])

lemma foldl_ok_inv (l : List TimedEvent) (st : ServeState)
    (hP : ∀ r, st.settled = some (.ok r) → r.success = true) :
    ∀ r, ((l.foldl stepServe st).settled = some (.ok r)) → r.success = true := by
  induction l generalizing st with
  | nil => exact hP
  | cons e t ih => exact ih (stepServe st e) (stepServe_ok_inv st e hP)

/-- Every successful resolution of the serve stage carries
`success: true` — the `runResult.success == false` branch of the executor
is unreachable. -/
lemma runApp_ok_success (events : List TimedEvent) (rr : RunResult)
    (h : (runApp events).1 = .ok rr) : rr.success = true := by
  have hinit : ∀ r : RunResult, serveInit.settled = some (.ok r) → r.success = true := by
    intro r hr
    cases hr
  have hE : ∀ r : RunResult, (runAppEarly events).settled = some (.ok r) → r.success = true := by
    unfold runAppEarly
    exact foldl_ok_inv (events.filter (fun e => decide (e.atMs < 30000))) serveInit hinit
  have hT : ∀ r : RunResult, (serveTimerStep (runAppEarly events)).settled = some (.ok r) →
      r.success = true := by
    intro r hr
    unfold serveTimerStep at hr
    by_cases hflag : (runAppEarly events).resolvedFlag
    · rw [if_pos hflag] at hr
      exact hE r hr
    · rw [if_neg hflag] at hr
      dsimp only at hr
      rcases hsett : (runAppEarly events).settled with _ | v
      · rw [hsett] at hr
        simp only [Option.or] at hr
        cases hr
      · rw [hsett] at hr
        simp only [Option.or] at hr
        exact hE r (by rw [hsett, Option.some.inj hr])
  have hF : ∀ r : RunResult, (runAppFinal events).settled = some (.ok r) → r.success = true := by
    unfold runAppFinal
    exact foldl_ok_inv (events.filter (fun e => decide (30000 ≤ e.atMs)))
      (serveTimerStep (runAppEarly events)) hT
  unfold runApp at h
  rcases hsett : (runAppFinal events).settled with _ | v
  · rw [hsett] at h
    cases h
  · rw [hsett] at h
    simp only [Option.getD] at h
    exact hF rr (by rw [hsett, h])

/-! ## Executor path characterizations

One equation per control-flow path of `runSingleRunner`. -/

lemma rsr_gen_error (cfg : RunnerConfigM) (env : RunnerEnv) (keep : Bool) (msg : String)
    (hg : env.gen = .error msg) :
    runSingleRunner cfg env keep =
      (catchResult cfg.id cfg.defaultModel msg env.tCatch,
       { compileCalled := false, serveCalled := false, analyzeCalled := false, stopCalls := 0
         cleanupCalled := false, cleanedUp := false, caught := true, serveKilled := false }) := by
  unfold runSingleRunner
  rw [hg]

lemma rsr_gen_fail (cfg : RunnerConfigM) (env : RunnerEnv) (keep : Bool) (br : BenchmarkResult)
    (hg : env.gen = .ok br) (hb : br.build.success = false) :
    runSingleRunner cfg env keep =
      ({ runner := cfg.id, model := cfg.defaultModel, success := false
         error := some "Code generation failed"
         totalDuration := env.tGenFail
         durations := { codeGeneration := br.build.duration, compilation := 0
                        serverStartup := 0, analysis := 0 }
         errors := { consoleErrors := 0, pageErrors := 0 } },
       { compileCalled := false, serveCalled := false, analyzeCalled := false, stopCalls := 0
         cleanupCalled := false, cleanedUp := false, caught := false, serveKilled := false }) := by
  unfold runSingleRunner
  rw [hg]
  simp [hb]

lemma rsr_compile_fail (cfg : RunnerConfigM) (env : RunnerEnv) (keep : Bool) (br : BenchmarkResult)
    (hg : env.gen = .ok br) (hb : br.build.success = true)
    (hc : (compileApp env.compileEnv).1.success = false) :
    runSingleRunner cfg env keep =
      ({ runner := cfg.id, model := cfg.defaultModel, success := false
         error := some "Compilation failed"
         totalDuration := env.tCompileFail
         durations := { codeGeneration := br.build.duration
                        compilation := (compileApp env.compileEnv).1.duration
                        serverStartup := 0, analysis := 0 }
         errors := { consoleErrors := 0, pageErrors := 0 }
         workspaceDir := some br.workspaceDir },
       { compileCalled := true, serveCalled := false, analyzeCalled := false, stopCalls := 0
         cleanupCalled := false, cleanedUp := false, caught := false, serveKilled := false }) := by
  unfold runSingleRunner
  rw [hg]
  simp [hb, hc]

lemma rsr_serve_error (cfg : RunnerConfigM) (env : RunnerEnv) (keep : Bool)
    (br : BenchmarkResult) (msg : String)
    (hg : env.gen = .ok br) (hb : br.build.success = true)
    (hc : (compileApp env.compileEnv).1.success = true)
    (hs : (runApp env.serveEvents).1 = .error msg) :
    runSingleRunner cfg env keep =
      (catchResult cfg.id cfg.defaultModel msg env.tCatch,
       { compileCalled := true, serveCalled := true, analyzeCalled := false, stopCalls := 0
         cleanupCalled := false, cleanedUp := false, caught := true
         serveKilled := (runApp env.serveEvents).2.1 }) := by
  unfold runSingleRunner
  rw [hg]
  simp only [hb, hc, hs, Bool.true_eq_false, if_false]

lemma rsr_success_skip (cfg : RunnerConfigM) (env : RunnerEnv) (keep : Bool)
    (br : BenchmarkResult) (rr : RunResult)
    (hg : env.gen = .ok br) (hb : br.build.success = true)
    (hc : (compileApp env.compileEnv).1.success = true)
    (hs : (runApp env.serveEvents).1 = .ok rr) (hrr : rr.success = true)
    (hcond : (!keep && cfg.hasCleanup && !(br.workspaceDir == "")) = false) :
    runSingleRunner cfg env keep =
      ({ runner := cfg.id, model := cfg.defaultModel, success := true
         totalDuration := env.tDone
         durations := { codeGeneration := br.build.duration
                        compilation := (compileApp env.compileEnv).1.duration
                        serverStartup := rr.duration
                        analysis := env.analyze.duration }
         errors := { consoleErrors := (env.analyze.consoleErrors.getD []).length
                     pageErrors := (env.analyze.pageErrors.getD []).length }
         screenshotPath := env.analyze.screenshotPath
         workspaceDir := some br.workspaceDir },
       { compileCalled := true, serveCalled := true, analyzeCalled := true
         stopCalls := 1, cleanupCalled := false, cleanedUp := false, caught := false
         serveKilled := (runApp env.serveEvents).2.1 }) := by
  unfold runSingleRunner
  rw [hg]
  simp only [hb, hc, hs, hrr, hcond, Bool.true_eq_false, Bool.false_eq_true, if_false]

lemma rsr_success_cleanup_ok (cfg : RunnerConfigM) (env : RunnerEnv) (keep : Bool)
    (br : BenchmarkResult) (rr : RunResult)
    (hg : env.gen = .ok br) (hb : br.build.success = true)
    (hc : (compileApp env.compileEnv).1.success = true)
    (hs : (runApp env.serveEvents).1 = .ok rr) (hrr : rr.success = true)
    (hcond : (!keep && cfg.hasCleanup && !(br.workspaceDir == "")) = true)
    (hcl : env.cleanup = .ok ()) :
    runSingleRunner cfg env keep =
      ({ runner := cfg.id, model := cfg.defaultModel, success := true
         totalDuration := env.tDone
         durations := { codeGeneration := br.build.duration
                        compilation := (compileApp env.compileEnv).1.duration
                        serverStartup := rr.duration
                        analysis := env.analyze.duration }
         errors := { consoleErrors := (env.analyze.consoleErrors.getD []).length
                     pageErrors := (env.analyze.pageErrors.getD []).length }
         screenshotPath := env.analyze.screenshotPath
         workspaceDir := some br.workspaceDir },
       { compileCalled := true, serveCalled := true, analyzeCalled := true
         stopCalls := 1, cleanupCalled := true, cleanedUp := true, caught := false
         serveKilled := (runApp env.serveEvents).2.1 }) := by
  unfold runSingleRunner
  rw [hg]
  simp only [hb, hc, hs, hrr, hcond, hcl, Bool.true_eq_false, Bool.false_eq_true, if_false, if_true]

lemma rsr_success_cleanup_error (cfg : RunnerConfigM) (env : RunnerEnv) (keep : Bool)
    (br : BenchmarkResult) (rr : RunResult) (msg : String)
    (hg : env.gen = .ok br) (hb : br.build.success = true)
    (hc : (compileApp env.compileEnv).1.success = true)
    (hs : (runApp env.serveEvents).1 = .ok rr) (hrr : rr.success = true)
    (hcond : (!keep && cfg.hasCleanup && !(br.workspaceDir == "")) = true)
    (hcl : env.cleanup = .error msg) :
    runSingleRunner cfg env keep =
      (catchResult cfg.id cfg.defaultModel msg env.tCatch,
       { compileCalled := true, serveCalled := true, analyzeCalled := true
         stopCalls := 2, cleanupCalled := true, cleanedUp := false, caught := true
         serveKilled := (runApp env.serveEvents).2.1 }) := by
  unfold runSingleRunner
  rw [hg]
  simp only [hb, hc, hs, hrr, hcond, hcl, Bool.true_eq_false, Bool.false_eq_true, if_false, if_true]

/-! ## Orchestrator lemmas -/

/-- Every path of the executor stamps the result with the configured
runner id. -/
lemma runSingleRunner_runner (cfg : RunnerConfigM) (env : RunnerEnv) (keep : Bool) :
    (runSingleRunner cfg env keep).1.runner = cfg.id := by
  unfold runSingleRunner
  rcases env.gen with msg | br <;> dsimp only
  · rfl
  · split
    · rfl
    · split
      · rfl
      · rcases (runApp env.serveEvents).1 with m | rr <;> dsimp only
        · rfl
        · split
          · rfl
          · split
            · rcases env.cleanup with m | u <;> rfl
            · rfl

lemma screenshotTweak_runner (r : RunnerBenchmarkResult) :
    (screenshotTweak r).runner = r.runner := rfl

lemma screenshotTweak_success (r : RunnerBenchmarkResult) :
    (screenshotTweak r).success = r.success := rfl

lemma screenshotTweak_totalDuration (r : RunnerBenchmarkResult) :
    (screenshotTweak r).totalDuration = r.totalDuration := rfl

/-- One orchestrator loop iteration always yields a result for the very
runner id it was given, whether the executor returned or threw. -/
lemma orchestrateOne_runner (env : OrchestraEnv) (keep : Bool) (rid : String) :
    (orchestrateOne env keep rid).runner = rid := by
  unfold orchestrateOne
  rcases env.fault rid with _ | msg
  · rcases hf : RUNNERS.find? (fun c => c.id == rid) with _ | cfg
    · rw [hf]
      rfl
    · rw [hf]
      have hpc := List.find?_some hf
      have hid : cfg.id = rid := by simpa using hpc
      dsimp only
      rw [runSingleRunner_runner, hid]
  · rfl

/-! ## Fastest-runner selection lemmas -/

lemma foldFast_cons (h x : RunnerBenchmarkResult) (t : List RunnerBenchmarkResult) :
    foldFast h (x :: t) =
      foldFast (if x.totalDuration < h.totalDuration then x else h) t := rfl

/-- The reduce-style fold picks an element of the list that is minimal in
`totalDuration` and strictly smaller than everything before it — the first
minimum. -/
lemma foldFast_spec (t : List RunnerBenchmarkResult) (h : RunnerBenchmarkResult) :
    ∃ pre post, h :: t = pre ++ foldFast h t :: post ∧
      (∀ s ∈ h :: t, (foldFast h t).totalDuration ≤ s.totalDuration) ∧
      (∀ s ∈ pre, (foldFast h t).totalDuration < s.totalDuration) := by
  induction t generalizing h with
  | nil =>
    refine ⟨[], [], rfl, ?_, ?_⟩
    · intro s hs
      have hsh : s = h := by simpa using hs
      subst hsh
      exact le_refl _
    · intro s hs
      cases hs
  | cons x t ih =>
    rw [foldFast_cons]
    by_cases hx : x.totalDuration < h.totalDuration
    · rw [if_pos hx]
      obtain ⟨pre, post, hdec, hle, hlt⟩ := ih x
      have hfx : (foldFast x t).totalDuration ≤ x.totalDuration :=
        hle x (List.mem_cons_self x t)
      refine ⟨h :: pre, post, ?_, ?_, ?_⟩
      · rw [List.cons_append, ← hdec]
      · intro s hs
        rcases List.mem_cons.mp hs with rfl | hs'
        · omega
        · exact hle s hs'
      · intro s hs
        rcases List.mem_cons.mp hs with rfl | hs'
        · omega
        · exact hlt s hs'
    · rw [if_neg hx]
      obtain ⟨pre, post, hdec, hle, hlt⟩ := ih h
      rcases pre with _ | ⟨q, pre'⟩
      · rw [List.nil_append] at hdec
        obtain ⟨hh, hp⟩ := List.cons.inj hdec
        refine ⟨[], x :: t, ?_, ?_, ?_⟩
        · rw [List.nil_append, ← hh]
        · intro s hs
          rcases List.mem_cons.mp hs with rfl | hs'
          · rw [← hh]
          · rcases List.mem_cons.mp hs' with rfl | hs''
            · rw [← hh]
              omega
            · exact hle s (List.mem_cons_of_mem h hs'')
        · intro s hs
          cases hs
      · rw [List.cons_append] at hdec
        obtain ⟨hq, ht⟩ := List.cons.inj hdec
        have hrq : (foldFast h t).totalDuration < q.totalDuration :=
          hlt q (List.mem_cons_self q pre')
        refine ⟨h :: x :: pre', post, ?_, ?_, ?_⟩
        · rw [List.cons_append, List.cons_append, ← ht]
        · intro s hs
          rcases List.mem_cons.mp hs with rfl | hs'
          · exact hle s (List.mem_cons_self s t)
          · rcases List.mem_cons.mp hs' with rfl | hs''
            · rw [← hq] at hrq
              omega
            · exact hle s (List.mem_cons_of_mem h hs'')
        · intro s hs
          rcases List.mem_cons.mp hs with rfl | hs'
          · rw [← hq] at hrq
            exact hrq
          · rcases List.mem_cons.mp hs' with rfl | hs''
            · rw [← hq] at hrq
              omega
            · exact hlt s (List.mem_cons_of_mem q hs'')

lemma find?_skip_false (p : RunnerBenchmarkResult → Bool)
    (pre l : List RunnerBenchmarkResult) (h : ∀ a ∈ pre, p a = false) :
    (pre ++ l).find? p = l.find? p := by
  induction pre with
  | nil => rfl
  | cons a t ih =>
    rw [List.cons_append, List.find?_cons_of_neg, ih (fun x hx => h x (List.mem_cons_of_mem a hx))]
    simp [h a (List.mem_cons_self a t)]

/-- The fold the orchestrator uses computes exactly `firstFastest`. -/
lemma firstFastest_cons (h : RunnerBenchmarkResult) (t : List RunnerBenchmarkResult) :
    firstFastest (h :: t) = some (foldFast h t) := by
  obtain ⟨pre, post, hdec, hle, hlt⟩ := foldFast_spec t h
  unfold firstFastest
  rw [hdec]
  rw [find?_skip_false _ pre _ ?hpre]
  · rw [List.find?_cons_of_pos]
    rw [List.all_eq_true]
    intro s hs
    exact decide_eq_true (hle s (hdec ▸ hs))
  case hpre =>
    intro a ha
    rw [Bool.eq_false_iff]
    intro hall
    rw [List.all_eq_true] at hall
    have hmem : foldFast h t ∈ pre ++ foldFast h t :: post :=
      List.mem_append_right pre (List.mem_cons_self _ post)
    have hba := hall (foldFast h t) hmem
    rw [decide_eq_true_iff] at hba
    have hba' := hlt a ha
    omega

lemma find?_map_tweak (p : RunnerBenchmarkResult → Bool) (l : List RunnerBenchmarkResult) :
    (l.map screenshotTweak).find? p =
      (l.find? (fun a => p (screenshotTweak a))).map screenshotTweak := by
  induction l with
  | nil => rfl
  | cons a t ih =>
    cases hpa : p (screenshotTweak a)
    · rw [List.map_cons, List.find?_cons_of_neg, List.find?_cons_of_neg, ih] <;> simp [hpa]
    · rw [List.map_cons, List.find?_cons_of_pos, List.find?_cons_of_pos] <;> simp [hpa]

lemma all_map_tweak (d : Nat) (m : List RunnerBenchmarkResult) :
    (m.map screenshotTweak).all (fun s => decide (d ≤ s.totalDuration)) =
      m.all (fun s => decide (d ≤ s.totalDuration)) := by
  induction m with
  | nil => rfl
  | cons b t ih =>
    simp only [List.map_cons, List.all_cons, screenshotTweak_totalDuration]
    rw [ih]

/-- The screenshot-basename rewrite commutes with the fastest-runner
selection: it changes no `success`, `runner` or `totalDuration` field. -/
lemma firstFastest_tweak (l : List RunnerBenchmarkResult) :
    firstFastest (l.map screenshotTweak) = (firstFastest l).map screenshotTweak := by
  unfold firstFastest
  rw [find?_map_tweak]
  have hpred : (fun a => (l.map screenshotTweak).all
      (fun s => decide ((screenshotTweak a).totalDuration ≤ s.totalDuration))) =
      (fun a => l.all (fun s => decide (a.totalDuration ≤ s.totalDuration))) :=
    funext (fun a => by
      simp only [screenshotTweak_totalDuration]
      exact all_map_tweak a.totalDuration l)
  rw [hpred]

lemma filter_success_tweak (l : List RunnerBenchmarkResult) :
    (l.map screenshotTweak).filter (fun r => r.success) =
      (l.filter (fun r => r.success)).map screenshotTweak := by
  induction l with
  | nil => rfl
  | cons a t ih =>
    cases ha : a.success
    · simp [List.filter_cons, screenshotTweak_success, ha, ih]
    · simp [List.filter_cons, screenshotTweak_success, ha, ih]

/-! ## Claims -/

/-- C1: For every orchestrator invocation whose runner filter validates to
`selected`, `metadata.runners` holds exactly one result per selected
runner, in selected order — under every per-runner environment and every
executor fault, so no runner failure (structured or thrown) removes or
prevents a sibling result. -/
theorem c1_one_result_per_selected_runner (env : OrchestraEnv) (keep : Bool)
    (appName prompt timestamp dateStr filter : String)
    (selected : List String) (md : BenchmarkMetadata)
    (hsel : parseRunnerFilter filter (RUNNERS.map (fun c => c.id)) = .ok selected)
    (hmd : runMultiRunnerBenchmark env filter keep appName prompt timestamp dateStr = .ok md) :
    md.runners.length = selected.length ∧
    md.runners.map (fun r => r.runner) = selected := by
  unfold runMultiRunnerBenchmark at hmd
  rw [hsel] at hmd
  simp only [Except.ok.injEq] at hmd
  subst hmd
  have key : ∀ l : List String,
      ((l.map (orchestrateOne env keep)).map screenshotTweak).map (fun r => r.runner) = l := by
    intro l
    induction l with
    | nil => rfl
    | cons a t ih =>
      simp only [List.map_cons, List.cons.injEq]
      exact ⟨by rw [screenshotTweak_runner, orchestrateOne_runner], ih⟩
  refine ⟨?_, key selected⟩
  simp [List.length_map]

/-- C1 witness: with both executors throwing, the empty filter still yields
one synthetic result per registered runner, in registration order. -/
theorem c1_witness :
    mdAllFault.runners.map (fun r => r.runner) = ["sigrid", "claude"] ∧
    mdAllFault.runners.length = 2 := by
  have h := c1_one_result_per_selected_runner envAllFault false "todo-app" "Build a todo app"
    "T" "20251012-120000" "" ["sigrid", "claude"] mdAllFault (by decide) (by decide)
  exact ⟨h.2, by rw [h.1]; rfl⟩

/-- C2: the summary's fastest runner and fastest time are the runner id and
total duration of the first successful result attaining the minimal total
duration (`firstFastest`), and both are `none` exactly when no runner
succeeded. -/
theorem c2_fastest_is_first_minimal_success (env : OrchestraEnv) (keep : Bool)
    (appName prompt timestamp dateStr filter : String)
    (md : BenchmarkMetadata)
    (hmd : runMultiRunnerBenchmark env filter keep appName prompt timestamp dateStr = .ok md) :
    md.summary.fastestRunner =
      (firstFastest (md.runners.filter (fun r => r.success))).map (fun r => r.runner) ∧
    md.summary.fastestTime =
      (firstFastest (md.runners.filter (fun r => r.success))).map (fun r => r.totalDuration) := by
  unfold runMultiRunnerBenchmark at hmd
  rcases hsel : parseRunnerFilter filter (RUNNERS.map (fun c => c.id)) with e | selected
  · rw [hsel] at hmd
    exact Except.noConfusion hmd
  · rw [hsel] at hmd
    simp only [Except.ok.injEq] at hmd
    subst hmd
    dsimp only
    rw [filter_success_tweak, firstFastest_tweak]
    rcases hsucc : (selected.map (orchestrateOne env keep)).filter (fun r => r.success)
      with _ | ⟨h, t⟩
    · rw [hsucc]
      exact ⟨rfl, rfl⟩
    · rw [hsucc, firstFastest_cons]
      exact ⟨rfl, rfl⟩

/-- C2 witness: both runners succeed, sigrid in 12000 ms and claude in
9000 ms; the summary names claude at 9000 ms. -/
theorem c2_witness :
    mdTwoOk.summary.fastestRunner =
      (firstFastest (mdTwoOk.runners.filter (fun r => r.success))).map (fun r => r.runner) ∧
    mdTwoOk.summary.fastestRunner = some "claude" ∧
    mdTwoOk.summary.fastestTime = some 9000 ∧
    mdTwoOk.summary.successfulRunners = 2 := by
  have h := c2_fastest_is_first_minimal_success envTwoOk true "todo-app" "Build a todo app"
    "T" "20251012-120000" "" mdTwoOk (by decide)
  exact ⟨h.1, by decide, by decide, by decide⟩

/-- C3: contrary to the warn-and-continue contract, a `cleanupWorkspace`
rejection after a fully successful pipeline escapes to the executor's
outer catch: the runner result flips to `success == false` with the
cleanup error message, and the recorded stage durations are zeroed. -/
theorem c3_cleanup_failure_escalates :
    (runSingleRunner cfgSigrid envC3 false).2.analyzeCalled = true ∧
    (runSingleRunner cfgSigrid envC3 false).2.cleanupCalled = true ∧
    (runSingleRunner cfgSigrid envC3 false).1.success = false ∧
    (runSingleRunner cfgSigrid envC3 false).1.error = some "EBUSY: resource busy" ∧
    (runSingleRunner cfgSigrid envC3 false).1.durations = zeroDurations := by decide

/-- C4 counterexample: with `keepWorkspaces == false` and a failing compile
stage, workspace deletion is never invoked — the claim's "runs regardless
of which state the executor reached" fails. -/
theorem c4_counterexample :
    (compileApp envC4.compileEnv).1.success = false ∧
    (runSingleRunner cfgSigrid envC4 false).2.cleanupCalled = false ∧
    cfgSigrid.hasCleanup = true := by decide

/-- C4 (amended): workspace deletion is invoked exactly when the run
reached the post-analysis step with `keepWorkspaces == false`, a cleanup
function present and a truthy workspace path; in particular it is never
invoked when `keepWorkspaces == true`, and never after a generation,
compile or serve failure. -/
theorem c4_cleanup_only_on_success_path (cfg : RunnerConfigM) (env : RunnerEnv) (keep : Bool) :
    (runSingleRunner cfg env keep).2.cleanupCalled =
      ((runSingleRunner cfg env keep).2.analyzeCalled &&
        (!keep && cfg.hasCleanup && genWsTruthy env)) := by
  rcases hg : env.gen with msg | br
  · rw [rsr_gen_error cfg env keep msg hg]
    rfl
  · cases hb : br.build.success with
    | false =>
      rw [rsr_gen_fail cfg env keep br hg hb]
      rfl
    | true =>
      cases hc : (compileApp env.compileEnv).1.success with
      | false =>
        rw [rsr_compile_fail cfg env keep br hg hb hc]
        rfl
      | true =>
        rcases hs : (runApp env.serveEvents).1 with msg | rr
        · rw [rsr_serve_error cfg env keep br msg hg hb hc hs]
          rfl
        · have hrr := runApp_ok_success env.serveEvents rr hs
          have hws : genWsTruthy env = !(br.workspaceDir == "") := by
            unfold genWsTruthy
            rw [hg]
          cases hcond : (!keep && cfg.hasCleanup && !(br.workspaceDir == "")) with
          | false =>
            rw [rsr_success_skip cfg env keep br rr hg hb hc hs hrr hcond]
            dsimp only
            rw [hws, Bool.true_and, hcond]
          | true =>
            rcases hcl : env.cleanup with msg | u
            · rw [rsr_success_cleanup_error cfg env keep br rr msg hg hb hc hs hrr hcond hcl]
              dsimp only
              rw [hws, Bool.true_and, hcond]
            · cases u
              rw [rsr_success_cleanup_ok cfg env keep br rr hg hb hc hs hrr hcond hcl]
              dsimp only
              rw [hws, Bool.true_and, hcond]

/-- C5 counterexample: the dev server exits 1 s in, so the ready pattern
never appears within 30 s — yet the failure is the exit error (no
"timeout" in it) and the process was not killed by the stage. -/
theorem c5_counterexample :
    (∀ e ∈ envC5x.serveEvents, isReadyChunk e = false) ∧
    (runSingleRunner cfgSigrid envC5x false).1.success = false ∧
    (runSingleRunner cfgSigrid envC5x false).1.error = some "Server exited with code 1" ∧
    containsStr "Server exited with code 1" "timeout" = false ∧
    (runSingleRunner cfgSigrid envC5x false).2.serveKilled = false := by decide

/-- C5 (amended): when no serve event before the 30 s mark resolves the
stage — no ready-pattern chunk, no process error, no premature exit — the
runner fails with the startup-timeout error (which contains "timeout"),
the child has been killed, and the analyze stage is never invoked. -/
theorem c5_timeout_when_no_event_resolves (cfg : RunnerConfigM) (env : RunnerEnv) (keep : Bool)
    (br : BenchmarkResult)
    (hg : env.gen = .ok br) (hb : br.build.success = true)
    (hc : (compileApp env.compileEnv).1.success = true)
    (hnr : ∀ e ∈ env.serveEvents, e.atMs < 30000 → resolvesServe e = false) :
    (runSingleRunner cfg env keep).1.success = false ∧
    (runSingleRunner cfg env keep).1.error = some "Server startup timeout (30s)" ∧
    containsStr "Server startup timeout (30s)" "timeout" = true ∧
    (runSingleRunner cfg env keep).2.serveKilled = true ∧
    (runSingleRunner cfg env keep).2.analyzeCalled = false := by
  obtain ⟨hto, hkill⟩ := runApp_timeout env.serveEvents hnr
  rw [rsr_serve_error cfg env keep br _ hg hb hc hto]
  exact ⟨rfl, rfl, by decide, hkill, rfl⟩

/-- C5 witness: a server that logs but never prints the ready line. -/
theorem c5_witness :
    (runSingleRunner cfgSigrid envC5w false).1.error = some "Server startup timeout (30s)" ∧
    (runSingleRunner cfgSigrid envC5w false).2.serveKilled = true ∧
    (runSingleRunner cfgSigrid envC5w false).2.analyzeCalled = false := by
  obtain ⟨h1, h2, h3, h4, h5⟩ := c5_timeout_when_no_event_resolves cfgSigrid envC5w false brOk
    rfl rfl (by decide) (by decide)
  exact ⟨h2, h4, h5⟩

/-- C6 counterexample: the timeout path never sets the `resolved` latch,
so a ready line arriving after the 30 s rejection invokes `resolve` a
second time — two settle calls in one execution, refuting "resolve or
reject is invoked at most once" (the outcome stays the timeout
rejection). -/
theorem c6_counterexample :
    runApp lateMatchEvents = (.error "Server startup timeout (30s)", true, 2) ∧
    (∀ e ∈ lateMatchEvents, isReadyChunk e = true) := by decide

/-- C6 (amended): if every event before the first matching stdout chunk is
non-resolving and the chunk arrives before the 30 s mark, the stage
resolves once with that chunk's URL and nothing that arrives later — a
second match, an exit, an error or the timer — changes the outcome or adds
a settle call. -/
theorem c6_first_match_wins_outcome_fixed (pre post : List TimedEvent) (a : Nat) (t url : String)
    (ha : a < 30000) (hm : matchLocalUrl (stripAnsi t) = some url)
    (hpre : ∀ x ∈ pre, x.atMs < 30000 ∧ resolvesServe x = false) :
    (∃ r : RunResult, runApp (pre ++ ⟨a, .stdoutData t⟩ :: post) = (.ok r, false, 1) ∧
        r.success = true ∧ r.serverUrl = some url ∧ r.duration = a) ∧
    runApp (pre ++ ⟨a, .stdoutData t⟩ :: post) = runApp (pre ++ [⟨a, .stdoutData t⟩]) := by
  have h1 := runApp_first_match pre post a t url ha hm hpre
  have h2 := runApp_first_match pre [] a t url ha hm hpre
  exact ⟨⟨_, h1, rfl, rfl, rfl⟩, by rw [h1, h2]⟩

/-- C6 witness: an ANSI-coloured vite ready line after two harmless chunks,
followed by a second ready line and a late exit that change nothing. -/
theorem c6_witness :
    (runApp (preChunks ++ readyChunk :: postChunks)).2.2 = 1 ∧
    ((runApp (preChunks ++ readyChunk :: postChunks)).1.toOption.map (fun r => r.serverUrl)) =
      some (some "http://localhost:5173") := by
  obtain ⟨⟨r, hr, hs, hu, hd⟩, _⟩ := c6_first_match_wins_outcome_fixed preChunks postChunks 1200
    "\x1b[2m  \x1b[0mLocal:   \x1b[36mhttp://localhost:5173/\x1b[0m\n" "http://localhost:5173"
    (by decide) (by decide) (by decide)
  simp only [readyChunk]
  rw [hr]
  refine ⟨rfl, ?_⟩
  show some r.serverUrl = some (some "http://localhost:5173")
  rw [hu]

/-- C7: `stopApp` sends the graceful signal, but because the 5 s timer
consults `.killed` — the signal-sent flag, already true after a successful
`kill()` — it never sends `SIGKILL` to a live process, whether or not the
process exits within the grace period. -/
theorem c7_sigkill_never_sent_to_live_process :
    stopApp (some { killedFlag := false, alive := true, exitsWithin5s := false }) =
      { gracefulSent := true, sigkillSent := false } ∧
    stopApp (some { killedFlag := false, alive := true, exitsWithin5s := true }) =
      { gracefulSent := true, sigkillSent := false } := by decide

/-- C8 counterexample: an install failure whose captured stderr is 501
characters long is returned untruncated — the claimed ≤ 500 excerpt bound
holds only on the success path. -/
theorem c8_counterexample :
    (compileApp longStderrCompileEnv).1.success = false ∧
    (compileApp longStderrCompileEnv).1.error = some "npm install failed" ∧
    ((compileApp longStderrCompileEnv).1.stderr.getD "").length = 501 ∧
    ¬ ((compileApp longStderrCompileEnv).1.stderr.getD "").length ≤ 500 := by decide

/-- C8 (amended): whenever dependency installation is needed and its
command rejects (non-zero exit or 5-minute timeout), the compile stage
returns `success == false` with error "npm install failed" and the raw
captured stderr (no 500-character truncation on this path), and the build
step never runs. -/
theorem c8_install_failure_terminal_full_stderr (env : CompileEnv) (e : ExecErrInfo)
    (hnm : env.nodeModulesExists = false) (hi : env.installOutcome = .error e) :
    compileApp env =
      ({ success := false
         duration := env.durationAtInstallFail
         installDuration := some env.installDurationMs
         error := some "npm install failed"
         stderr := some (jsOr e.stderr e.message) }, false) := by
  unfold compileApp
  rw [hnm, hi]
  rfl

/-- C8 witness: a concrete failing `npm install`. -/
theorem c8_witness :
    compileApp failCompileEnv =
      ({ success := false, duration := 950, installDuration := some 900
         error := some "npm install failed"
         stderr := some "Command failed: npm install" }, false) :=
  c8_install_failure_terminal_full_stderr failCompileEnv
    { message := "Command failed: npm install" } rfl rfl

/-- C9 counterexample: generation, compile and serve all succeed and the
analyze stage merely reports failure, yet the result has
`success == false` — because the workspace-cleanup rejection (not the
analyze verdict) escapes to the catch block. -/
theorem c9_counterexample :
    envC9x.gen = .ok brOk ∧ brOk.build.success = true ∧
    (compileApp envC9x.compileEnv).1.success = true ∧
    (runApp envC9x.serveEvents).1 = .ok rrOk ∧
    envC9x.analyze.success = false ∧
    (runSingleRunner cfgSigrid envC9x false).1.success = false := by decide

/-- C9 (amended): when generation, compile and serve succeed and no
exception escapes the remaining steps (cleanup resolves, or is skipped via
`keepWorkspaces`, a missing cleanup function, or an empty workspace path),
the result has `success == true` for every analyze outcome — the analyze
verdict is never consulted, so `Failed` is unreachable from Analyzing. -/
theorem c9_analyze_failure_never_fails_runner (cfg : RunnerConfigM) (env : RunnerEnv)
    (keep : Bool) (br : BenchmarkResult) (rr : RunResult)
    (hg : env.gen = .ok br) (hb : br.build.success = true)
    (hc : (compileApp env.compileEnv).1.success = true)
    (hs : (runApp env.serveEvents).1 = .ok rr)
    (hcl : env.cleanup = .ok () ∨ keep = true ∨ cfg.hasCleanup = false ∨ br.workspaceDir = "") :
    (runSingleRunner cfg env keep).1.success = true := by
  have hrr := runApp_ok_success env.serveEvents rr hs
  cases hcond : (!keep && cfg.hasCleanup && !(br.workspaceDir == "")) with
  | false =>
    rw [rsr_success_skip cfg env keep br rr hg hb hc hs hrr hcond]
  | true =>
    rcases hcl with hcl | hkeep | hclean | hws
    · rw [rsr_success_cleanup_ok cfg env keep br rr hg hb hc hs hrr hcond hcl]
    · subst hkeep
      simp at hcond
    · rw [hclean] at hcond
      simp at hcond
    · rw [hws] at hcond
      simp at hcond

/-- C9 witness: an analyze stage that reports failure while the pipeline
result stays successful. -/
theorem c9_witness :
    envC9w.analyze.success = false ∧
    (runSingleRunner cfgSigrid envC9w false).1.success = true := by
  refine ⟨by decide, ?_⟩
  exact c9_analyze_failure_never_fails_runner cfgSigrid envC9w false brOk rrOk
    rfl rfl (by decide) (by decide) (Or.inl rfl)

/-- C10: every result produced by the executor's outer catch — a rejected
generation call, a rejected serve promise, or a rejected cleanup — has all
four stage durations zero, no `workspaceDir` (so the path is absent from
the persisted metadata), `success == false`, and no workspace was cleaned
up on that path. -/
theorem c10_catch_zeroes_result (cfg : RunnerConfigM) (env : RunnerEnv) (keep : Bool)
    (h : (runSingleRunner cfg env keep).2.caught = true) :
    (runSingleRunner cfg env keep).1.durations = zeroDurations ∧
    (runSingleRunner cfg env keep).1.workspaceDir = none ∧
    (runSingleRunner cfg env keep).1.success = false ∧
    (runSingleRunner cfg env keep).2.cleanedUp = false := by
  rcases hg : env.gen with msg | br
  · rw [rsr_gen_error cfg env keep msg hg]
    exact ⟨rfl, rfl, rfl, rfl⟩
  · cases hb : br.build.success with
    | false =>
      rw [rsr_gen_fail cfg env keep br hg hb] at h
      cases h
    | true =>
      cases hc : (compileApp env.compileEnv).1.success with
      | false =>
        rw [rsr_compile_fail cfg env keep br hg hb hc] at h
        cases h
      | true =>
        rcases hs : (runApp env.serveEvents).1 with msg | rr
        · rw [rsr_serve_error cfg env keep br msg hg hb hc hs]
          exact ⟨rfl, rfl, rfl, rfl⟩
        · have hrr := runApp_ok_success env.serveEvents rr hs
          cases hcond : (!keep && cfg.hasCleanup && !(br.workspaceDir == "")) with
          | false =>
            rw [rsr_success_skip cfg env keep br rr hg hb hc hs hrr hcond] at h
            cases h
          | true =>
            rcases hcl : env.cleanup with msg | u
            · rw [rsr_success_cleanup_error cfg env keep br rr msg hg hb hc hs hrr hcond hcl]
              exact ⟨rfl, rfl, rfl, rfl⟩
            · cases u
              rw [rsr_success_cleanup_ok cfg env keep br rr hg hb hc hs hrr hcond hcl] at h
              cases h

/-- C10 witness: a serve-stage `error` event rejects the promise; the
catch result is zeroed with no workspace path. -/
theorem c10_witness :
    (runSingleRunner cfgSigrid envC10w false).1.durations = zeroDurations ∧
    (runSingleRunner cfgSigrid envC10w false).1.workspaceDir = none ∧
    (runSingleRunner cfgSigrid envC10w false).2.cleanedUp = false := by
  obtain ⟨h1, h2, h3, h4⟩ := c10_catch_zeroes_result cfgSigrid envC10w false (by decide)
  exact ⟨h1, h2, h4⟩

end Abe
